import Mathlib

/-!
Verification of the wikibot pattern-action chatbot (`src/a10.py`).

The repository is a small natural-language query system: a tokenizer, a
template matcher (`match.py`, imported by `a10.py` as `from match import
match`; the file itself is not part of the sources, so the matcher is
modelled from the specification, section 4.1), an ordered pattern-action
registry (`pa_list`), a dispatcher (`search_pa_list`) and a query loop
(`query_loop`).

Modelling conventions:
- Python strings are `String`; where character-level reasoning is needed
  (text cleaning, tokenization) we work on `List Char`, which is the
  kernel representation of `String` anyway.
- Python exceptions are the `Exc` inductive; fallible code runs in
  `Except Exc`.  A raised exception is `Except.error`, a normal return is
  `Except.ok`.
- The external collaborators (the `wikipedia` client, BeautifulSoup's
  infobox extraction and the `re` regex engine) are an oracle record
  `Env`; everything the repository's own code does around them is
  embedded faithfully.
-/

namespace A10

/-- Python exceptions that appear in `a10.py`: `KeyboardInterrupt` (raised
by `bye_action`, caught by `query_loop`), `EOFError` (raised by `input()`
at end of input, caught by `query_loop`), `LookupError` (raised by
`get_first_infobox_text`), `AttributeError` (raised by `get_match`),
`ValueError` (raised by the city getters on an empty name), `IndexError`
(raised by `matches[0]` on an empty list) and anything a library call
might raise. -/
inductive Exc where
  | keyboardInterrupt : Exc
  | eofError : Exc
  | lookupError : String → Exc
  | attributeError : String → Exc
  | valueError : String → Exc
  | indexError : String → Exc
  | other : String → Exc
deriving DecidableEq, Repr

/-- Oracle for the external collaborators of `a10.py`.

`pageHtml` models `wikipedia.search(title)` followed by
`WikipediaPage(results[0]).html()` (the body of `get_page_html`); it may
fail with any exception (network errors, missing page).

`infoboxes` models `BeautifulSoup(html).find_all(class_="infobox")`
followed by taking `.text` of each hit: the list of infobox texts of a
page, possibly empty.

`reSearch` models `re.compile(pattern, re.DOTALL | re.IGNORECASE)
.search(text)` together with the extraction of the one capture group each
caller reads: `none` when the pattern does not match, `some g` with the
captured group otherwise. -/
structure Env where
  pageHtml : String → Except Exc String
  infoboxes : String → List (List Char)
  reSearch : String → List Char → Option String

/-! ## Tokenization (`query_loop`'s input processing) -/

/-- Accumulator-style whitespace splitting; models Python's
`str.split()` with no arguments: maximal runs of non-whitespace become
tokens, whitespace is discarded, no empty tokens are produced. -/
def splitWsAux : List Char → List Char → List String
  | [], acc => if acc.isEmpty then [] else [String.mk acc.reverse]
  | c :: cs, acc =>
    if c.isWhitespace then
      if acc.isEmpty then splitWsAux cs [] else String.mk acc.reverse :: splitWsAux cs []
    else splitWsAux cs (c :: acc)

/-- Python `line.split()`. -/
def splitWs (line : List Char) : List String := splitWsAux line []

/-- Python `line.replace("?", "")`: removes every question mark, wherever
it occurs in the line. -/
def removeQmarks (line : List Char) : List Char := line.filter (fun c => c ≠ '?')

/-- Lowercasing of one token, `str.lower()` restricted to ASCII. -/
def lowerTok (s : String) : String := String.mk (s.data.map Char.toLower)

/-- The tokenization performed by `query_loop`:
`input(...).replace("?", "").lower().split()`. -/
def tokenize (line : List Char) : List String :=
  splitWs ((removeQmarks line).map Char.toLower)

/-- Modelled from the spec: drop a question mark only when it is the last
character of the line (the spec's "strips a trailing `?`"). -/
def stripTrailingQmark (line : List Char) : List Char :=
  if line.getLast? = some '?' then line.dropLast else line

/-- Modelled from the spec: the tokenization as the spec's line protocol
describes it — strip a trailing question mark, lowercase, split on
whitespace.  Kept separate from `tokenize` (the code's pipeline) so the
two can be compared. -/
def spec_tokenize (line : List Char) : List String :=
  splitWs ((stripTrailingQmark line).map Char.toLower)

/-! ## Text cleaning (`clean_text`) -/

/-- Membership in Python's `string.printable`: the 95 ASCII printable
characters (codes 32 to 126) together with the whitespace characters
`\t`, `\n`, `\x0b`, `\x0c`, `\r` (codes 9 to 13). -/
def printable (c : Char) : Bool :=
  (32 ≤ c.toNat && c.toNat ≤ 126) || (9 ≤ c.toNat && c.toNat ≤ 13)

/-- Collapse every maximal run of the character `t` to a single `t`;
models `re.sub(t + "+", t, s)` for a single character `t`.  The
occurrence kept is the last of each run. -/
def collapse (t : Char) : List Char → List Char
  | [] => []
  | [c] => [c]
  | c :: c2 :: cs =>
    if c = t ∧ c2 = t then collapse t (c2 :: cs) else c :: collapse t (c2 :: cs)

/-- No two adjacent occurrences of the character `t`; the invariant
`collapse t` establishes. -/
def noAdj (t : Char) : List Char → Prop
  | c :: c2 :: cs => ¬(c = t ∧ c2 = t) ∧ noAdj t (c2 :: cs)
  | _ => True

/-- `clean_text` from `a10.py`: replace every character outside
`string.printable` by a space, then collapse runs of spaces, then
collapse runs of newlines. -/
def clean_text (text : List Char) : List Char :=
  collapse '\n' (collapse ' '
    (text.map (fun c => if printable c then c else ' ')))

/-! ## The template matcher

`a10.py` imports `match` from `match.py`, which is not among the
sources.  Modelled from the spec: section 4.1's recursive structural
matching.  An empty template matches only the empty query; a wildcard
`"%"` that is the last template entry binds the entire remaining query
(possibly no tokens); a wildcard followed by further entries tries
candidate prefix lengths 1, 2, ... of the remaining query and keeps the
first length for which the rest of the template matches the rest of the
query; a literal entry must equal the first query token
case-insensitively.  `none` is the no-match sentinel, distinct from
`some []`, the empty binding. -/
def pmatch : List String → List String → Option (List String)
  | [], src => if src.isEmpty then some [] else none
  | p :: pat, src =>
    if p = "%" then
      match pat with
      | [] => some src
      | q :: qs =>
        match src with
        | [] => none
        | s :: srest =>
          match pmatch (q :: qs) srest with
          | some rest => some (s :: rest)
          | none => (pmatch (p :: pat) srest).map (fun rest => s :: rest)
    else
      match src with
      | [] => none
      | s :: srest => if lowerTok p = lowerTok s then pmatch pat srest else none

/-- Declarative form of the spec's wording for a wildcard followed by
further template entries: candidate prefix lengths are tried from 1
upward and the first success is taken; the wildcard contributes the
prefix, followed by whatever the rest of the template binds in the rest
of the query. -/
def wildcardSpec (rest src : List String) : Option (List String) :=
  (List.range src.length).findSome? (fun i =>
    (pmatch rest (src.drop (i + 1))).map (fun b => src.take (i + 1) ++ b))

/-! ## Fact retrieval (`a10.py`'s getters, around the `Env` oracle) -/

/-- `get_page_html` from `a10.py`: `wikipedia.search` plus
`WikipediaPage(...).html()`, both external, hence the oracle call. -/
def get_page_html (env : Env) (title : String) : Except Exc String :=
  env.pageHtml title

/-- `get_first_infobox_text` from `a10.py`: the external soup lookup
produces the list of infobox texts; an empty list raises
`LookupError("Page has no infobox")`, otherwise the first text is
returned. -/
def get_first_infobox_text (env : Env) (html : String) : Except Exc (List Char) :=
  match env.infoboxes html with
  | [] => Except.error (Exc.lookupError "Page has no infobox")
  | ib :: _ => Except.ok ib

/-- `get_match` from `a10.py`: run the (external) regex search; when it
finds nothing, raise `AttributeError(error_text)`, otherwise return the
match (represented by the capture group the caller reads). -/
def get_match (env : Env) (text : List Char) (pattern : String)
    (error_text : String) : Except Exc String :=
  match env.reSearch pattern text with
  | none => Except.error (Exc.attributeError error_text)
  | some g => Except.ok g

/-- `get_polar_radius` from `a10.py`. -/
def get_polar_radius (env : Env) (planet_name : String) : Except Exc String := do
  let html ← get_page_html env planet_name
  let ib ← get_first_infobox_text env html
  get_match env (clean_text ib)
    "(?:Polar radius.*?)(?: ?[\\d]+ )?(?P<radius>[\\d,.]+)(?:.*?)km"
    "Page infobox has no polar radius information"

/-- `get_birth_date` from `a10.py`. -/
def get_birth_date (env : Env) (name : String) : Except Exc String := do
  let html ← get_page_html env name
  let ib ← get_first_infobox_text env html
  get_match env (clean_text ib)
    "(?:Born\\D*)(?P<birth>\\d\x7b4\x7d-\\d\x7b2\x7d-\\d\x7b2\x7d)"
    "Page infobox has no birth information (at least none in xxxx-xx-xx format)"

/-- The body of `get_city_pop` after its empty-name check: fetch the
page, take the first infobox, clean it and extract the population via
the regex. -/
def get_city_pop_unchecked (env : Env) (name : String) : Except Exc String := do
  let html ← get_page_html env name
  let ib ← get_first_infobox_text env html
  get_match env (clean_text ib)
    "Population [a-zA-Z!@#$%^&*() [\\]]+\\d\x7b4\x7d[a-zA-Z!@#$%^&*() [\\]]+\\d\x7b0,2\x7d[a-zA-Z!@#$%^&*() [\\]]+?([0-9,]+)"
    "Page infobox has no population information"

/-- `get_city_pop` from `a10.py`: `if not name: raise ValueError(...)`
(Python string falsiness is emptiness), then the retrieval body. -/
def get_city_pop (env : Env) (name : String) : Except Exc String :=
  if name = "" then Except.error (Exc.valueError "City name must be provided")
  else get_city_pop_unchecked env name

/-- The body of `get_city_coords` after its empty-name check. -/
def get_city_coords_unchecked (env : Env) (name : String) : Except Exc String := do
  let html ← get_page_html env name
  let ib ← get_first_infobox_text env html
  get_match env (clean_text ib)
    "Coordinates: ?(\\d+\\s\\d+\\s+\\d+\\s\\w\\s\\d+\\s\\d+\\s\\d+\\s+\\w)"
    "Page infobox has no coordinates information"

/-- `get_city_coords` from `a10.py`. -/
def get_city_coords (env : Env) (name : String) : Except Exc String :=
  if name = "" then Except.error (Exc.valueError "City name must be provided")
  else get_city_coords_unchecked env name

/-- The body of `get_city_country` after its empty-name check. -/
def get_city_country_unchecked (env : Env) (name : String) : Except Exc String := do
  let html ← get_page_html env name
  let ib ← get_first_infobox_text env html
  get_match env (clean_text ib)
    "Country\\s*([A-Z][a-z]*(?: [A-Z][a-z]*)?)"
    "Page infobox has no country information"

/-- `get_city_country` from `a10.py`. -/
def get_city_country (env : Env) (name : String) : Except Exc String :=
  if name = "" then Except.error (Exc.valueError "City name must be provided")
  else get_city_country_unchecked env name

/-! ## Actions -/

/-- The type of the registry's actions: a binding to a list of answers,
or a raised exception. -/
abbrev Action := List String → Except Exc (List String)

/-- `birth_date` from `a10.py`:
`[get_birth_date(" ".join(matches))]`. -/
def birth_date (env : Env) (ms : List String) : Except Exc (List String) :=
  (get_birth_date env (String.intercalate " " ms)).map (fun a => [a])

/-- `polar_radius` from `a10.py`: `[get_polar_radius(matches[0])]`;
`matches[0]` on an empty binding raises `IndexError`. -/
def polar_radius (env : Env) (ms : List String) : Except Exc (List String) :=
  match ms with
  | [] => Except.error (Exc.indexError "list index out of range")
  | m :: _ => (get_polar_radius env m).map (fun a => [a])

/-- `city_pop` from `a10.py`: `if not matches or not matches[0]` guards
the empty binding and the empty first token, returning
`["No city specified"]`; otherwise `[get_city_pop(matches[0])]`. -/
def city_pop (env : Env) (ms : List String) : Except Exc (List String) :=
  match ms with
  | [] => Except.ok ["No city specified"]
  | m :: _ =>
    if m = "" then Except.ok ["No city specified"]
    else (get_city_pop env m).map (fun a => [a])

/-- `city_coords` from `a10.py`, same guard as `city_pop`. -/
def city_coords (env : Env) (ms : List String) : Except Exc (List String) :=
  match ms with
  | [] => Except.ok ["No city specified"]
  | m :: _ =>
    if m = "" then Except.ok ["No city specified"]
    else (get_city_coords env m).map (fun a => [a])

/-- `city_country` from `a10.py`, same guard as `city_pop`. -/
def city_country (env : Env) (ms : List String) : Except Exc (List String) :=
  match ms with
  | [] => Except.ok ["No city specified"]
  | m :: _ =>
    if m = "" then Except.ok ["No city specified"]
    else (get_city_country env m).map (fun a => [a])

/-- `bye_action` from `a10.py`: ignores its argument and raises
`KeyboardInterrupt`. -/
def bye_action (_dummy : List String) : Except Exc (List String) :=
  Except.error Exc.keyboardInterrupt

/-! ## Registry and dispatcher -/

/-- `pa_list` from `a10.py`: the ordered pattern-action registry; the
template strings are split on whitespace exactly as `"...".split()`
does. -/
def pa_list (env : Env) : List (List String × Action) :=
  [ (splitWs ("when was % born".data), birth_date env),
    (splitWs ("what is the polar radius of %".data), polar_radius env),
    (splitWs ("what is the population of %".data), city_pop env),
    (splitWs ("what are the coordinates of %".data), city_coords env),
    (splitWs ("what country is % in".data), city_country env),
    (["bye"], bye_action) ]

/-- The loop body of `search_pa_list`, over an arbitrary registry: try
each entry in order; on the first template match run the action — a
raised exception propagates, an empty answer list becomes
`["No answers"]` (`answer if answer else ["No answers"]`), anything else
is returned unchanged; when no entry matches, return
`["I don\x27t understand"]`. -/
def searchPaList (pal : List (List String × Action)) (src : List String) :
    Except Exc (List String) :=
  match pal with
  | [] => Except.ok ["I don\x27t understand"]
  | (pat, act) :: rest =>
    match pmatch pat src with
    | some mat =>
      match act mat with
      | Except.ok answer =>
        Except.ok (if answer.isEmpty then ["No answers"] else answer)
      | Except.error e => Except.error e
    | none => searchPaList rest src

/-- `search_pa_list` from `a10.py`: the dispatcher over the actual
registry. -/
def search_pa_list (env : Env) (src : List String) : Except Exc (List String) :=
  searchPaList (pa_list env) src

/-! ## Query loop -/

/-- How a run of `query_loop` ends: `graceful` means the loop broke out
of the `while` (a caught `KeyboardInterrupt` or `EOFError`), printed the
`"So long!"` shutdown message and returned, so the process exits with
success status; `crashed e` means the exception `e` propagated uncaught
out of `query_loop`, terminating the process with a traceback and no
shutdown message. -/
inductive Outcome where
  | graceful : Outcome
  | crashed : Exc → Outcome
deriving DecidableEq, Repr

/-- `query_loop` from `a10.py`, run on a finite list of input lines.
Returns the answer lines printed (one string per printed answer; the
prompt, blank lines and shutdown message are not part of the list) and
how the run ends.  `input()` at end of input raises `EOFError`, which
the `except (KeyboardInterrupt, EOFError)` clause catches, breaking the
loop; the same clause catches a `KeyboardInterrupt` propagating out of
`search_pa_list` (from `bye_action`), in which case the answers of that
query are never printed; any other exception is uncaught. -/
def query_loop (env : Env) : List (List Char) → List String × Outcome
  | [] => ([], Outcome.graceful)
  | line :: rest =>
    match search_pa_list env (tokenize line) with
    | Except.error Exc.keyboardInterrupt => ([], Outcome.graceful)
    | Except.error Exc.eofError => ([], Outcome.graceful)
    | Except.error e => ([], Outcome.crashed e)
    | Except.ok answers =>
      let r := query_loop env rest
      (answers ++ r.1, r.2)

/-! ## Concrete environments used by witnesses -/

/-- An environment in which every page lookup yields a page whose soup
has no infobox and every regex search fails. -/
def noInfoboxEnv : Env :=
  { pageHtml := fun _ => Except.ok "<html></html>",
    infoboxes := fun _ => [],
    reSearch := fun _ _ => none }

/-! ## Unfolding lemmas for the matcher -/

/-- A wildcard followed by further entries never matches an empty query. -/
theorem pmatch_wild_nil (q : String) (qs : List String) :
    pmatch ("%" :: q :: qs) [] = none := rfl

/-- One step of the wildcard case with further entries: first try a
length-1 binding (match the rest of the template against the rest of the
query), then extend the wildcard by one token. -/
theorem pmatch_wild_cons (q : String) (qs : List String) (s : String) (srest : List String) :
    pmatch ("%" :: q :: qs) (s :: srest) =
      match pmatch (q :: qs) srest with
      | some rest => some (s :: rest)
      | none => (pmatch ("%" :: q :: qs) srest).map (fun rest => s :: rest) := rfl

/-- `findSome?` commutes with mapping every candidate's result. -/
theorem findSome?_map_comp {α β γ : Type} (g : α → Option β) (h : β → γ) :
    ∀ l : List α, l.findSome? (fun a => (g a).map h) = (l.findSome? g).map h
  | [] => rfl
  | a :: l => by
    rw [List.findSome?_cons, List.findSome?_cons]
    cases hg : g a with
    | none => simpa [hg] using findSome?_map_comp g h l
    | some b => simp [hg]

/-- The matcher's wildcard case agrees with the declarative
shortest-prefix-first rule. -/
theorem wildcard_shortest (q : String) (qs : List String) :
    ∀ src, pmatch ("%" :: q :: qs) src = wildcardSpec (q :: qs) src
  | [] => by simp [wildcardSpec, pmatch_wild_nil]
  | s :: srest => by
    have ih := wildcard_shortest q qs srest
    rw [pmatch_wild_cons, wildcardSpec, List.length_cons, List.range_succ_eq_map,
      List.findSome?_cons, List.findSome?_map]
    have hfun : ((fun i => (pmatch (q :: qs) ((s :: srest).drop (i + 1))).map
          (fun b => (s :: srest).take (i + 1) ++ b)) ∘ Nat.succ) =
        fun i => ((pmatch (q :: qs) (srest.drop (i + 1))).map
          (fun b => srest.take (i + 1) ++ b)).map (fun b => s :: b) := by
      funext i
      simp [Function.comp_def, List.drop_succ_cons, List.take_succ_cons, Option.map_map]
    rw [hfun, findSome?_map_comp, ← wildcardSpec, ← ih]
    cases h : pmatch (q :: qs) srest with
    | some rest => simp [h]
    | none => simp [h]

/-! ## Lemmas about `collapse` (for `clean_text`) -/

/-- Two-element step of `collapse`, as an equation. -/
theorem collapse_cons2 (t c c2 : Char) (cs : List Char) :
    collapse t (c :: c2 :: cs) =
      if c = t ∧ c2 = t then collapse t (c2 :: cs) else c :: collapse t (c2 :: cs) := rfl

/-- `collapse` keeps the head of a nonempty list (the last element of a
leading run equals its first). -/
theorem collapse_cons_head (t : Char) :
    ∀ (xs : List Char) (x : Char), ∃ ys, collapse t (x :: xs) = x :: ys
  | [], x => ⟨[], rfl⟩
  | x2 :: xs, x => by
    by_cases h : x = t ∧ x2 = t
    · obtain ⟨ys, hys⟩ := collapse_cons_head t xs x2
      exact ⟨ys, by rw [collapse_cons2, if_pos h, hys, h.1, h.2]⟩
    · exact ⟨collapse t (x2 :: xs), by rw [collapse_cons2, if_neg h]⟩

/-- After collapsing runs of `t` there are no adjacent `t`s left. -/
theorem noAdj_collapse (t : Char) : ∀ l : List Char, noAdj t (collapse t l)
  | [] => trivial
  | [_] => trivial
  | c :: c2 :: cs => by
    by_cases h : c = t ∧ c2 = t
    · rw [collapse_cons2, if_pos h]
      exact noAdj_collapse t (c2 :: cs)
    · rw [collapse_cons2, if_neg h]
      obtain ⟨ys, hys⟩ := collapse_cons_head t cs c2
      rw [hys]
      have ih := noAdj_collapse t (c2 :: cs)
      rw [hys] at ih
      exact ⟨h, ih⟩

/-- Collapsing runs of `t` cannot create adjacent occurrences of a
different character `u`. -/
theorem noAdj_collapse_ne (t u : Char) (htu : t ≠ u) :
    ∀ l : List Char, noAdj u l → noAdj u (collapse t l)
  | [], _ => trivial
  | [_], _ => trivial
  | c :: c2 :: cs, h => by
    obtain ⟨h1, h2⟩ := h
    by_cases hc : c = t ∧ c2 = t
    · rw [collapse_cons2, if_pos hc]
      exact noAdj_collapse_ne t u htu (c2 :: cs) h2
    · rw [collapse_cons2, if_neg hc]
      obtain ⟨ys, hys⟩ := collapse_cons_head t cs c2
      rw [hys]
      have ih := noAdj_collapse_ne t u htu (c2 :: cs) h2
      rw [hys] at ih
      exact ⟨h1, ih⟩

/-- On a list with no adjacent `t`s, `collapse` is the identity. -/
theorem collapse_of_noAdj (t : Char) : ∀ l : List Char, noAdj t l → collapse t l = l
  | [], _ => rfl
  | [_], _ => rfl
  | c :: c2 :: cs, h => by
    rw [collapse_cons2, if_neg h.1, collapse_of_noAdj t (c2 :: cs) h.2]

/-- `collapse` only removes characters; it introduces none. -/
theorem mem_of_mem_collapse (t : Char) :
    ∀ l : List Char, ∀ c ∈ collapse t l, c ∈ l
  | [], c, hc => hc
  | [_], c, hc => hc
  | x :: x2 :: xs, c, hc => by
    by_cases h : x = t ∧ x2 = t
    · rw [collapse_cons2, if_pos h] at hc
      exact List.mem_cons_of_mem _ (mem_of_mem_collapse t (x2 :: xs) c hc)
    · rw [collapse_cons2, if_neg h] at hc
      rcases List.mem_cons.mp hc with h1 | h1
      · exact h1 ▸ List.mem_cons_self _ _
      · exact List.mem_cons_of_mem _ (mem_of_mem_collapse t (x2 :: xs) c h1)

/-- Everything `clean_text` outputs is in Python's `string.printable`. -/
theorem printable_clean_text (s : List Char) :
    ∀ c ∈ clean_text s, printable c = true := by
  intro c hc
  have h1 := mem_of_mem_collapse '\n' _ c hc
  have h2 := mem_of_mem_collapse ' ' _ c h1
  obtain ⟨c0, _, hc0⟩ := List.mem_map.mp h2
  by_cases hp : printable c0 = true
  · rw [← hc0, if_pos hp]; exact hp
  · rw [← hc0, if_neg hp]; decide

/-! ## Lemmas about the dispatcher and the loop -/

/-- An empty registry yields the no-match fallback. -/
theorem searchPaList_nil (src : List String) :
    searchPaList [] src = Except.ok ["I don\x27t understand"] := rfl

/-- When the head entry's template matches, its action decides the
result: exceptions propagate, an empty answer list becomes
`["No answers"]`, other lists pass through unchanged. -/
theorem searchPaList_cons_match (pat : List String) (act : Action)
    (rest : List (List String × Action)) (src mat : List String)
    (h : pmatch pat src = some mat) :
    searchPaList ((pat, act) :: rest) src =
      match act mat with
      | Except.ok answer => Except.ok (if answer.isEmpty then ["No answers"] else answer)
      | Except.error e => Except.error e := by
  rw [searchPaList, h]

/-- When the head entry's template does not match, the search moves on. -/
theorem searchPaList_cons_nomatch (pat : List String) (act : Action)
    (rest : List (List String × Action)) (src : List String)
    (h : pmatch pat src = none) :
    searchPaList ((pat, act) :: rest) src = searchPaList rest src := by
  rw [searchPaList, h]

/-- A block of non-matching entries is skipped entirely. -/
theorem searchPaList_append_nomatch (pal1 pal2 : List (List String × Action))
    (src : List String) (h : ∀ e ∈ pal1, pmatch e.1 src = none) :
    searchPaList (pal1 ++ pal2) src = searchPaList pal2 src := by
  induction pal1 with
  | nil => rfl
  | cons e pal1 ih =>
    rw [List.cons_append,
      searchPaList_cons_nomatch e.1 e.2 _ src (h e (List.mem_cons_self _ _)),
      ih (fun e2 he2 => h e2 (List.mem_cons_of_mem _ he2))]

/-- Stripping a trailing question mark from a line with no question
marks at all does nothing. -/
theorem stripTrailing_removeQmarks (line : List Char) :
    stripTrailingQmark (removeQmarks line) = removeQmarks line := by
  unfold stripTrailingQmark
  rw [if_neg]
  intro h
  have hm := List.mem_of_mem_getLast? h
  rw [removeQmarks] at hm
  have := (List.mem_filter.mp hm).2
  simp at this

/-- A dispatch that raises anything other than `KeyboardInterrupt` or
`EOFError` escapes `query_loop`'s `except` clause: nothing is printed
for that query, no further input is read, and the run crashes. -/
theorem query_loop_cons_err (env : Env) (line : List Char) (rest : List (List Char))
    (e : Exc) (h : search_pa_list env (tokenize line) = Except.error e)
    (h1 : e ≠ Exc.keyboardInterrupt) (h2 : e ≠ Exc.eofError) :
    query_loop env (line :: rest) = ([], Outcome.crashed e) := by
  rw [query_loop, h]
  cases e with
  | keyboardInterrupt => exact absurd rfl h1
  | eofError => exact absurd rfl h2
  | lookupError m => rfl
  | attributeError m => rfl
  | valueError m => rfl
  | indexError m => rfl
  | other m => rfl

/-! ## The claims -/

/-- C1: for every template in which the wildcard marker is followed by
further entries (shape `"%" :: q :: qs`) and every query, the matcher
binds the wildcard to the shortest non-empty prefix of the remaining
query such that the rest of the template matches the rest of the query:
its result equals `wildcardSpec`, which tries candidate prefix lengths
from 1 upward and takes the first success; in particular the wildcard
never binds zero tokens when entries follow it. -/
theorem wildcard_binds_shortest_nonempty_prefix (q : String) (qs src : List String) :
    pmatch ("%" :: q :: qs) src = wildcardSpec (q :: qs) src :=
  wildcard_shortest q qs src

/-- C2: `search_pa_list` invokes the action of the earliest registry
entry whose template matches the query — the result is exactly the
normalization of that entry's action on its binding, whatever the later
entries `pal2` are, so no later action is ever evaluated. -/
theorem search_pa_list_first_match_wins (pal1 : List (List String × Action))
    (pat : List String) (act : Action) (pal2 : List (List String × Action))
    (src mat : List String)
    (h1 : ∀ e ∈ pal1, pmatch e.1 src = none) (h2 : pmatch pat src = some mat) :
    searchPaList (pal1 ++ (pat, act) :: pal2) src =
      match act mat with
      | Except.ok answer => Except.ok (if answer.isEmpty then ["No answers"] else answer)
      | Except.error e => Except.error e := by
  rw [searchPaList_append_nomatch pal1 _ src h1,
    searchPaList_cons_match pat act pal2 src mat h2]

/-- Witness for C2: two deliberately overlapping templates; the
earlier-registered entry's answer is returned. -/
theorem search_pa_list_first_match_wins_witness :
    searchPaList [(["bye"], (fun _ => Except.ok ["first"] : Action)),
        (["bye"], (fun _ => Except.ok ["second"] : Action))] ["bye"] =
      Except.ok ["first"] :=
  search_pa_list_first_match_wins [] ["bye"] (fun _ => Except.ok ["first"])
    [(["bye"], (fun _ => Except.ok ["second"] : Action))] ["bye"] []
    (by simp) (by decide)

end A10
namespace A10

/-- C3 counterexample: the code's tokenization removes every question
mark, not only a trailing one: on the line `a?b` it produces `["ab"]`,
while the spec's strip-only-a-trailing-question-mark pipeline produces
`["a?b"]`. -/
theorem tokenize_strips_interior_qmark :
    tokenize ("a?b".data) = ["ab"] ∧ spec_tokenize ("a?b".data) = ["a?b"] ∧
      tokenize ("a?b".data) ≠ spec_tokenize ("a?b".data) := by
  refine ⟨rfl, rfl, ?_⟩
  decide

/-- C3 amended: the query loop's tokenization removes every question
mark wherever it occurs in the line, lowercases, and splits on
whitespace; equivalently it agrees with the spec's
strip-a-trailing-question-mark pipeline applied to the line with all
question marks already removed. -/
theorem tokenize_removes_all_qmarks (line : List Char) :
    tokenize line = spec_tokenize (removeQmarks line) := by
  rw [tokenize, spec_tokenize, stripTrailing_removeQmarks]

/-- C4: when the earliest matching entry's action returns normally, the
dispatcher returns its non-empty result unchanged and turns an empty
result into exactly `["No answers"]`. -/
theorem search_pa_list_normalizes_answers (pal1 : List (List String × Action))
    (pat : List String) (act : Action) (pal2 : List (List String × Action))
    (src mat ans : List String)
    (h1 : ∀ e ∈ pal1, pmatch e.1 src = none) (h2 : pmatch pat src = some mat)
    (h3 : act mat = Except.ok ans) :
    searchPaList (pal1 ++ (pat, act) :: pal2) src =
      Except.ok (if ans.isEmpty then ["No answers"] else ans) := by
  rw [searchPaList_append_nomatch pal1 _ src h1,
    searchPaList_cons_match pat act pal2 src mat h2, h3]

/-- Witness for C4: an action returning the empty list yields
`["No answers"]`. -/
theorem search_pa_list_normalizes_answers_witness :
    searchPaList [(["hi"], (fun _ => Except.ok [] : Action))] ["hi"] =
      Except.ok ["No answers"] :=
  search_pa_list_normalizes_answers [] ["hi"] (fun _ => Except.ok []) [] ["hi"] [] []
    (by simp) (by decide) rfl

/-- C5: when no registry entry's template matches the query, the
dispatcher returns exactly the fallback, and the trigger is the
matcher's no-match sentinel `none` — an empty binding `some []` is a
match and runs the action instead. -/
theorem search_pa_list_no_match_fallback :
    (∀ (pal : List (List String × Action)) (src : List String),
      (∀ e ∈ pal, pmatch e.1 src = none) →
      searchPaList pal src = Except.ok ["I don\x27t understand"]) ∧
    (pmatch ["%"] [] = some [] ∧ ∀ act : Action,
      searchPaList [(["%"], act)] [] =
        match act [] with
        | Except.ok answer => Except.ok (if answer.isEmpty then ["No answers"] else answer)
        | Except.error e => Except.error e) := by
  refine ⟨?_, rfl, ?_⟩
  · intro pal src h
    have happ := searchPaList_append_nomatch pal [] src h
    rw [List.append_nil] at happ
    rw [happ, searchPaList_nil]
  · intro act
    exact searchPaList_cons_match ["%"] act [] [] [] rfl

/-- Witness for C5: no template of the actual registry matches the
query `xyzzy`, so the dispatcher answers the fallback. -/
theorem search_pa_list_no_match_fallback_witness :
    searchPaList (pa_list noInfoboxEnv) ["xyzzy"] =
      Except.ok ["I don\x27t understand"] :=
  search_pa_list_no_match_fallback.1 (pa_list noInfoboxEnv) ["xyzzy"]
    (by
      intro e he
      simp only [pa_list, List.mem_cons, List.not_mem_nil, or_false] at he
      rcases he with rfl | rfl | rfl | rfl | rfl | rfl <;> rfl)

end A10
namespace A10

/-- C6: `bye_action` raises the termination signal (`KeyboardInterrupt`)
instead of returning an answer list; on the input line `bye` the
dispatcher propagates that signal, and the query loop — whatever
environment it runs in and whatever further input is waiting — prints no
answer line for that query, reads no further input, and ends gracefully
(shutdown message, successful exit) rather than crashing. -/
theorem bye_terminates_loop_gracefully (env : Env) (rest : List (List Char))
    (d : List String) :
    bye_action d = Except.error Exc.keyboardInterrupt ∧
    search_pa_list env (tokenize ("bye".data)) = Except.error Exc.keyboardInterrupt ∧
    query_loop env (("bye".data) :: rest) = ([], Outcome.graceful) :=
  ⟨rfl, rfl, rfl⟩

/-- C7: a fact-retrieval failure is fatal: when the earliest matching
entry's action raises, the exception propagates unchanged out of the
dispatcher (never becoming a user-visible answer), and any exception
other than the two the `except` clause names (`KeyboardInterrupt`,
`EOFError`) propagates out of the query loop, terminating the run. -/
theorem retrieval_failure_crashes_loop :
    (∀ (pal1 : List (List String × Action)) (pat : List String) (act : Action)
        (pal2 : List (List String × Action)) (src mat : List String) (e : Exc),
      (∀ en ∈ pal1, pmatch en.1 src = none) → pmatch pat src = some mat →
      act mat = Except.error e →
      searchPaList (pal1 ++ (pat, act) :: pal2) src = Except.error e) ∧
    (∀ (env : Env) (line : List Char) (rest : List (List Char)) (e : Exc),
      search_pa_list env (tokenize line) = Except.error e →
      e ≠ Exc.keyboardInterrupt → e ≠ Exc.eofError →
      query_loop env (line :: rest) = ([], Outcome.crashed e)) := by
  constructor
  · intro pal1 pat act pal2 src mat e h1 h2 h3
    rw [searchPaList_append_nomatch pal1 _ src h1,
      searchPaList_cons_match pat act pal2 src mat h2, h3]
  · exact query_loop_cons_err

/-- Witness for C7: against a page with no infobox, `when was x born`
reaches `get_first_infobox_text`'s `LookupError`, which crashes the
loop with no answer printed. -/
theorem retrieval_failure_crashes_loop_witness :
    query_loop noInfoboxEnv [("when was x born".data), ("bye".data)] =
      ([], Outcome.crashed (Exc.lookupError "Page has no infobox")) :=
  retrieval_failure_crashes_loop.2 noInfoboxEnv ("when was x born".data)
    [("bye".data)] (Exc.lookupError "Page has no infobox") rfl (by decide) (by decide)

/-- C8: the query `what is the population of` (no city tokens) matches
the population template with an empty wildcard binding; the dispatcher
then answers `["No city specified"]` no matter what the retrieval
environment is (so retrieval is never consulted); and `city_pop` gives
that same guard answer for every binding that is empty or whose first
token is the empty string. -/
theorem empty_city_binding_guard :
    (pmatch (splitWs ("what is the population of %".data))
        (tokenize ("what is the population of".data)) = some []) ∧
    (∀ env : Env, search_pa_list env (tokenize ("what is the population of".data)) =
      Except.ok ["No city specified"]) ∧
    (∀ (env : Env) (ms : List String), ms = [] ∨ ms.head? = some "" →
      city_pop env ms = Except.ok ["No city specified"]) := by
  refine ⟨rfl, fun env => rfl, ?_⟩
  intro env ms h
  rcases h with rfl | h
  · rfl
  · cases ms with
    | nil => rfl
    | cons m tl =>
      simp only [List.head?_cons, Option.some.injEq] at h
      subst h
      rfl

/-- Witness for C8: the empty binding takes the guard branch. -/
theorem empty_city_binding_guard_witness :
    city_pop noInfoboxEnv [] = Except.ok ["No city specified"] :=
  empty_city_binding_guard.2.2 noInfoboxEnv [] (Or.inl rfl)

/-- C9: `clean_text` is idempotent: one pass leaves only printable
characters and no runs of two or more spaces or newlines, so a second
pass changes nothing. -/
theorem clean_text_idempotent (s : List Char) :
    clean_text (clean_text s) = clean_text s := by
  have hmap : (clean_text s).map (fun c => if printable c then c else ' ') = clean_text s := by
    rw [show (clean_text s).map (fun c => if printable c then c else ' ') =
        (clean_text s).map id from
      List.map_congr_left (fun a ha => by rw [if_pos (printable_clean_text s a ha)]; rfl)]
    exact List.map_id _
  have hsp : noAdj ' ' (clean_text s) := by
    unfold clean_text
    exact noAdj_collapse_ne '\n' ' ' (by decide) _ (noAdj_collapse ' ' _)
  have hnl : noAdj '\n' (clean_text s) := by
    unfold clean_text
    exact noAdj_collapse '\n' _
  conv_lhs => rw [clean_text, hmap, collapse_of_noAdj ' ' _ hsp,
    collapse_of_noAdj '\n' _ hnl]

/-- C10: the `ValueError` branch of the city getters is unreachable
through their dispatcher actions: each action either answers the guard
message without touching its getter, or calls it on the non-empty first
token of the binding — and on a non-empty name each getter is exactly
its check-free body. -/
theorem city_getter_value_error_unreachable :
    (∀ (env : Env) (nm : String), nm ≠ "" →
      get_city_pop env nm = get_city_pop_unchecked env nm ∧
      get_city_coords env nm = get_city_coords_unchecked env nm ∧
      get_city_country env nm = get_city_country_unchecked env nm) ∧
    (∀ (env : Env) (ms : List String),
      (city_pop env ms = Except.ok ["No city specified"] ∧
       city_coords env ms = Except.ok ["No city specified"] ∧
       city_country env ms = Except.ok ["No city specified"]) ∨
      (∃ nm tl, ms = nm :: tl ∧ nm ≠ "" ∧
        city_pop env ms = (get_city_pop_unchecked env nm).map (fun a => [a]) ∧
        city_coords env ms = (get_city_coords_unchecked env nm).map (fun a => [a]) ∧
        city_country env ms = (get_city_country_unchecked env nm).map (fun a => [a]))) := by
  constructor
  · intro env nm h
    exact ⟨by rw [get_city_pop, if_neg h], by rw [get_city_coords, if_neg h],
      by rw [get_city_country, if_neg h]⟩
  · intro env ms
    cases ms with
    | nil => exact Or.inl ⟨rfl, rfl, rfl⟩
    | cons m tl =>
      by_cases hm : m = ""
      · subst hm
        exact Or.inl ⟨rfl, rfl, rfl⟩
      · refine Or.inr ⟨m, tl, rfl, hm, ?_, ?_, ?_⟩
        · simp only [city_pop, if_neg hm, get_city_pop, if_neg hm]
        · simp only [city_coords, if_neg hm, get_city_coords, if_neg hm]
        · simp only [city_country, if_neg hm, get_city_country, if_neg hm]

/-- Witness for C10: on a non-empty city name the getter is its
check-free body (no `ValueError`). -/
theorem city_getter_value_error_unreachable_witness :
    get_city_pop noInfoboxEnv "tokyo" = get_city_pop_unchecked noInfoboxEnv "tokyo" :=
  (city_getter_value_error_unreachable.1 noInfoboxEnv "tokyo" (by decide)).1

end A10
